import Mathlib

/-!
Shallow embedding of the openadapt-capture recording pipeline
(recorder.py, config.py, utils.py, video.py, db/crud.py) and theorems
checking the natural-language specification against the code.

Timestamps are modeled as rationals; images, window states and browser
messages as opaque natural-number handles; queues and database tables as
lists; exceptions as `Except`.
-/

namespace OACapture

/-! ### Clock: utils.py, set_start_time and get_timestamp -/

/-- Module-global clock anchor of utils.py: `_start_time` and
`_start_perf_counter`, both initially `None`. -/
structure ClockState where
  startTime : Option ℚ
  startPerfCounter : Option ℚ
deriving DecidableEq, Repr

def initialClock : ClockState := ⟨none, none⟩

/-- Embeds `set_start_time(value)` of utils.py: `_start_time = value or
time.time()` replaces a falsy `value` (None or 0.0) with the current wall
clock; `_start_perf_counter` is always set to the current `perf_counter()`.
Returns the new state and the stored start time. -/
def setStartTime (value : Option ℚ) (wallNow perfNow : ℚ) : ClockState × ℚ :=
  let t := match value with
    | some v => if v = 0 then wallNow else v
    | none => wallNow
  (⟨some t, some perfNow⟩, t)

def clockUninitMsg : String :=
  "AssertionError: set_start_time must be called before get_timestamp"

/-- Embeds `get_timestamp()` of utils.py: asserts both anchors are truthy,
then returns `_start_time + (perf_counter() - _start_perf_counter)`. -/
def getTimestamp (st : ClockState) (perfNow : ℚ) : Except String ℚ :=
  match st.startTime, st.startPerfCounter with
  | some t, some pc =>
      if t = 0 then .error clockUninitMsg
      else if pc = 0 then .error clockUninitMsg
      else .ok (t + (perfNow - pc))
  | _, _ => .error clockUninitMsg

/-! ### Settings: config.py -/

/-- Value stored in a `Settings` attribute. -/
inductive SettingsValue
  | boolVal (b : Bool)
  | strVal (s : String)
  | intVal (i : ℤ)
  | seqsVal (s : List (List String))
  | noneVal
deriving DecidableEq, Repr

def STOP_STRS : List String := ["oa.stop"]

def SPECIAL_CHAR_STOP_SEQUENCES : List (List String) := [["ctrl", "ctrl", "ctrl"]]

/-- Python `list(stop_str)`: splits a string into one-character strings. -/
def listOfChars (s : String) : List String := s.toList.map (fun c => String.mk [c])

def defaultStopSequences : List (List String) :=
  STOP_STRS.map listOfChars ++ SPECIAL_CHAR_STOP_SEQUENCES

/-- Attributes declared on the `Settings` class of config.py, with their
default values, in source order. `SCREEN_CAPTURE_FPS` is not among them. -/
def settingsAttrs : List (String × SettingsValue) :=
  [("openai_api_key", .noneVal),
   ("RECORD_WINDOW_DATA", .boolVal false),
   ("RECORD_READ_ACTIVE_ELEMENT_STATE", .boolVal false),
   ("RECORD_VIDEO", .boolVal true),
   ("RECORD_AUDIO", .boolVal false),
   ("RECORD_BROWSER_EVENTS", .boolVal false),
   ("RECORD_FULL_VIDEO", .boolVal false),
   ("RECORD_IMAGES", .boolVal false),
   ("LOG_MEMORY", .boolVal false),
   ("VIDEO_ENCODING", .strVal "libx264"),
   ("VIDEO_PIXEL_FORMAT", .strVal "yuv444p"),
   ("STOP_SEQUENCES", .seqsVal defaultStopSequences),
   ("PLOT_PERFORMANCE", .boolVal true),
   ("BROWSER_WEBSOCKET_SERVER_IP", .strVal "localhost"),
   ("BROWSER_WEBSOCKET_PORT", .intVal 8765),
   ("BROWSER_WEBSOCKET_MAX_SIZE", .intVal 4194304),
   ("DB_ECHO", .boolVal false)]

/-- Python attribute access on the `config` singleton: `AttributeError` when
the name is not a declared field (pydantic with extra inputs ignored stores
nothing beyond the declared fields). -/
def getattrConfig (nm : String) : Except String SettingsValue :=
  match settingsAttrs.find? (fun p => p.1 == nm) with
  | some p => .ok p.2
  | none => .error ("AttributeError: Settings object has no attribute " ++ nm)

/-- Embeds the start of `read_screen_events` (recorder.py): it reads
`config.SCREEN_CAPTURE_FPS` and computes
`min_interval = 1.0 / fps if fps > 0 else 0.0`. -/
def readScreenEventsFpsSetup : Except String (ℚ × ℚ) := do
  let v ← getattrConfig "SCREEN_CAPTURE_FPS"
  match v with
  | .intVal i =>
      let fps : ℚ := i
      pure (fps, if fps > 0 then 1 / fps else 0)
  | _ => .error "TypeError: SCREEN_CAPTURE_FPS is not a number"

/-! ### Mutable config attributes and config_override: config.py -/

/-- Mutable global `Settings` attributes that `config_override` can touch:
the image of `_FIELD_TO_CONFIG_ATTR`, which is also exactly the set of
recording options read by the recorder pipeline. -/
structure Config where
  RECORD_VIDEO : Bool
  RECORD_AUDIO_FLAG : Bool
  RECORD_IMAGES : Bool
  RECORD_WINDOW_DATA : Bool
  RECORD_BROWSER_EVENTS : Bool
  RECORD_FULL_VIDEO : Bool
  VIDEO_ENCODING : String
  VIDEO_PIXEL_FORMAT : String
  STOP_SEQUENCES : List (List String)
  LOG_MEMORY : Bool
  PLOT_PERFORMANCE : Bool
deriving DecidableEq, Repr

/-- Default values of the overridable attributes, from the `Settings` class
defaults in config.py. -/
def defaultConfig : Config :=
  { RECORD_VIDEO := true
    RECORD_AUDIO_FLAG := false
    RECORD_IMAGES := false
    RECORD_WINDOW_DATA := false
    RECORD_BROWSER_EVENTS := false
    RECORD_FULL_VIDEO := false
    VIDEO_ENCODING := "libx264"
    VIDEO_PIXEL_FORMAT := "yuv444p"
    STOP_SEQUENCES := defaultStopSequences
    LOG_MEMORY := false
    PLOT_PERFORMANCE := true }

/-- Embeds the `RecordingConfig` dataclass of config.py: `None` means use
the default from config. -/
structure RecordingConfig where
  capture_video : Option Bool := none
  capture_audio : Option Bool := none
  capture_images : Option Bool := none
  capture_window_data : Option Bool := none
  capture_browser_events : Option Bool := none
  capture_full_video : Option Bool := none
  video_encoding : Option String := none
  video_pixel_format : Option String := none
  stop_sequences : Option (List (List String)) := none
  log_memory : Option Bool := none
  plot_performance : Option Bool := none
deriving DecidableEq, Repr

/-- Embeds the `originals` dict built on entry to `config_override`: for each
`RecordingConfig` field holding a non-None value, the prior value of the
mapped config attribute (keyed through `_FIELD_TO_CONFIG_ATTR`). -/
structure SavedOriginals where
  RECORD_VIDEO : Option Bool
  RECORD_AUDIO_FLAG : Option Bool
  RECORD_IMAGES : Option Bool
  RECORD_WINDOW_DATA : Option Bool
  RECORD_BROWSER_EVENTS : Option Bool
  RECORD_FULL_VIDEO : Option Bool
  VIDEO_ENCODING : Option String
  VIDEO_PIXEL_FORMAT : Option String
  STOP_SEQUENCES : Option (List (List String))
  LOG_MEMORY : Option Bool
  PLOT_PERFORMANCE : Option Bool
deriving DecidableEq, Repr

/-- Entry of `config_override` (config.py): the loop over
`fields(recording_config)` saves the original of every attribute whose
override value is not None, and sets the override; each attribute is touched
by exactly one field, so the loop is this simultaneous record update. -/
def configOverrideEnter (c : Config) (rc : RecordingConfig) : Config × SavedOriginals :=
  ({ RECORD_VIDEO := rc.capture_video.getD c.RECORD_VIDEO
     RECORD_AUDIO_FLAG := rc.capture_audio.getD c.RECORD_AUDIO_FLAG
     RECORD_IMAGES := rc.capture_images.getD c.RECORD_IMAGES
     RECORD_WINDOW_DATA := rc.capture_window_data.getD c.RECORD_WINDOW_DATA
     RECORD_BROWSER_EVENTS := rc.capture_browser_events.getD c.RECORD_BROWSER_EVENTS
     RECORD_FULL_VIDEO := rc.capture_full_video.getD c.RECORD_FULL_VIDEO
     VIDEO_ENCODING := rc.video_encoding.getD c.VIDEO_ENCODING
     VIDEO_PIXEL_FORMAT := rc.video_pixel_format.getD c.VIDEO_PIXEL_FORMAT
     STOP_SEQUENCES := rc.stop_sequences.getD c.STOP_SEQUENCES
     LOG_MEMORY := rc.log_memory.getD c.LOG_MEMORY
     PLOT_PERFORMANCE := rc.plot_performance.getD c.PLOT_PERFORMANCE },
   { RECORD_VIDEO := rc.capture_video.map (fun _ => c.RECORD_VIDEO)
     RECORD_AUDIO_FLAG := rc.capture_audio.map (fun _ => c.RECORD_AUDIO_FLAG)
     RECORD_IMAGES := rc.capture_images.map (fun _ => c.RECORD_IMAGES)
     RECORD_WINDOW_DATA := rc.capture_window_data.map (fun _ => c.RECORD_WINDOW_DATA)
     RECORD_BROWSER_EVENTS := rc.capture_browser_events.map (fun _ => c.RECORD_BROWSER_EVENTS)
     RECORD_FULL_VIDEO := rc.capture_full_video.map (fun _ => c.RECORD_FULL_VIDEO)
     VIDEO_ENCODING := rc.video_encoding.map (fun _ => c.VIDEO_ENCODING)
     VIDEO_PIXEL_FORMAT := rc.video_pixel_format.map (fun _ => c.VIDEO_PIXEL_FORMAT)
     STOP_SEQUENCES := rc.stop_sequences.map (fun _ => c.STOP_SEQUENCES)
     LOG_MEMORY := rc.log_memory.map (fun _ => c.LOG_MEMORY)
     PLOT_PERFORMANCE := rc.plot_performance.map (fun _ => c.PLOT_PERFORMANCE) })

/-- Exit of `config_override` (the `finally` clause): every attribute saved
in `originals` is written back; attributes not in the dict are untouched. -/
def configOverrideExit (c : Config) (s : SavedOriginals) : Config :=
  { RECORD_VIDEO := s.RECORD_VIDEO.getD c.RECORD_VIDEO
    RECORD_AUDIO_FLAG := s.RECORD_AUDIO_FLAG.getD c.RECORD_AUDIO_FLAG
    RECORD_IMAGES := s.RECORD_IMAGES.getD c.RECORD_IMAGES
    RECORD_WINDOW_DATA := s.RECORD_WINDOW_DATA.getD c.RECORD_WINDOW_DATA
    RECORD_BROWSER_EVENTS := s.RECORD_BROWSER_EVENTS.getD c.RECORD_BROWSER_EVENTS
    RECORD_FULL_VIDEO := s.RECORD_FULL_VIDEO.getD c.RECORD_FULL_VIDEO
    VIDEO_ENCODING := s.VIDEO_ENCODING.getD c.VIDEO_ENCODING
    VIDEO_PIXEL_FORMAT := s.VIDEO_PIXEL_FORMAT.getD c.VIDEO_PIXEL_FORMAT
    STOP_SEQUENCES := s.STOP_SEQUENCES.getD c.STOP_SEQUENCES
    LOG_MEMORY := s.LOG_MEMORY.getD c.LOG_MEMORY
    PLOT_PERFORMANCE := s.PLOT_PERFORMANCE.getD c.PLOT_PERFORMANCE }

/-- Embeds the whole `with config_override(rc): body` block: the body runs on
the overridden global config and returns the global config it leaves behind,
or raises; the `finally` clause restores the saved originals in either case.
Returns the body outcome and the final global config. -/
def configOverrideRun (c : Config) (rc : RecordingConfig)
    (body : Config → Except String Config) : Except String Config × Config :=
  let entered := configOverrideEnter c rc
  match body entered.1 with
  | .ok c2 => (.ok c2, configOverrideExit c2 entered.2)
  | .error e => (.error e, configOverrideExit entered.1 entered.2)

/-! ### Events and the event router: recorder.py, process_events -/

/-- Event type strings of recorder.py: the four inbox types in `EVENT_TYPES`,
plus the derived type written by `event._replace(type="screen/video")` for
the video queue. -/
inductive EventKind
  | screen
  | action
  | window
  | browser
  | screenVideo
deriving DecidableEq, Repr

/-- Payload dict of an action event, as decorated by the router:
`screenshot_timestamp` and `window_event_timestamp` are absent (`none`) until
`process_events` sets them. -/
structure ActionData where
  nm : String
  screenshot_timestamp : Option ℚ := none
  window_event_timestamp : Option ℚ := none
deriving DecidableEq, Repr

/-- Event payload: screen image, window data, browser message (opaque
handles), or an action dict. -/
inductive EventData
  | img (i : ℕ)
  | win (w : ℕ)
  | browserMsg (m : ℕ)
  | act (a : ActionData)
deriving DecidableEq, Repr

/-- Embeds the `Event` namedtuple `(timestamp, type, data)` of recorder.py. -/
structure Event where
  timestamp : ℚ
  type : EventKind
  data : EventData
deriving DecidableEq, Repr

/-- Local state of `process_events`: previous event, previous screen and
window events, and the last promoted (persisted) screen and window
timestamps, initially 0. -/
structure RouterState where
  prevEvent : Option Event := none
  prevScreenEvent : Option Event := none
  prevWindowEvent : Option Event := none
  prevSavedScreenTimestamp : ℚ := 0
  prevSavedWindowTimestamp : ℚ := 0
deriving DecidableEq, Repr

/-- Everything `process_events` emits: the five writer queues, the log
messages, and the shared counters it increments. -/
structure RouterOutput where
  screenQ : List Event := []
  actionQ : List Event := []
  windowQ : List Event := []
  browserQ : List Event := []
  videoQ : List Event := []
  logs : List String := []
  numScreenEvents : ℕ := 0
  numActionEvents : ℕ := 0
  numWindowEvents : ℕ := 0
  numVideoEvents : ℕ := 0
deriving DecidableEq, Repr

def RouterOutput.append (a b : RouterOutput) : RouterOutput :=
  { screenQ := a.screenQ ++ b.screenQ
    actionQ := a.actionQ ++ b.actionQ
    windowQ := a.windowQ ++ b.windowQ
    browserQ := a.browserQ ++ b.browserQ
    videoQ := a.videoQ ++ b.videoQ
    logs := a.logs ++ b.logs
    numScreenEvents := a.numScreenEvents + b.numScreenEvents
    numActionEvents := a.numActionEvents + b.numActionEvents
    numWindowEvents := a.numWindowEvents + b.numWindowEvents
    numVideoEvents := a.numVideoEvents + b.numVideoEvents }

/-- Result of one iteration of the `process_events` loop body: either the
next router state together with what was emitted, or an uncaught exception
(which still carries whatever was emitted before the raise, since queue puts
take effect immediately). -/
inductive StepResult
  | ok (st : RouterState) (out : RouterOutput)
  | crash (msg : String) (out : RouterOutput)
deriving DecidableEq, Repr

def StepResult.addLog (msg : String) : StepResult → StepResult
  | .ok st out => .ok st { out with logs := msg :: out.logs }
  | .crash m out => .crash m { out with logs := msg :: out.logs }

def StepResult.prevScreenOf : StepResult → Option Event
  | .ok st _ => st.prevScreenEvent
  | .crash _ _ => none

def discardBeforeScreenMsg : String := "Discarding action that came before screen"

def discardBeforeWindowMsg : String := "Discarding action that came before window"

def orderingLogMsg : String :=
  "AssertionError swallowed: event.timestamp not greater than prev_event.timestamp"

def windowNoneCrashMsg : String :=
  "AttributeError: NoneType object has no attribute timestamp"

def assertEventTypeMsg : String := "AssertionError: event.type not in EVENT_TYPES"

/-- Sets `event.data["screenshot_timestamp"]` on an action event. -/
def setScreenshotTs (e : Event) (t : ℚ) : Event :=
  match e.data with
  | .act a => { e with data := .act { a with screenshot_timestamp := some t } }
  | _ => e

/-- Sets `event.data["window_event_timestamp"]` on an action event. -/
def setWindowTs (e : Event) (t : ℚ) : Event :=
  match e.data with
  | .act a => { e with data := .act { a with window_event_timestamp := some t } }
  | _ => e

/-- Embeds recorder.py lines 281-310 of the action branch: route the
decorated action to the action queue, then, when the previous screen event
is newer than the last promoted one, promote it to the screen queue and (in
action-gated video mode, `RECORD_VIDEO and not RECORD_FULL_VIDEO`) to the
video queue. -/
def actionOutputs (cfg : Config) (st : RouterState) (decorated ps : Event) :
    RouterState × RouterOutput :=
  let base : RouterOutput := { actionQ := [decorated], numActionEvents := 1 }
  if st.prevSavedScreenTimestamp < ps.timestamp then
    let out1 := { base with screenQ := [ps], numScreenEvents := 1 }
    let out2 :=
      if cfg.RECORD_VIDEO && !cfg.RECORD_FULL_VIDEO then
        { out1 with videoQ := [{ ps with type := .screenVideo }], numVideoEvents := 1 }
      else out1
    ({ st with prevSavedScreenTimestamp := ps.timestamp }, out2)
  else (st, base)

/-- Embeds recorder.py lines 311-320: promote the previous window event when
it is newer than the last promoted one. -/
def promoteWindow (st : RouterState) (pw : Event) : RouterState × RouterOutput :=
  if st.prevSavedWindowTimestamp < pw.timestamp then
    ({ st with prevSavedWindowTimestamp := pw.timestamp },
     { windowQ := [pw], numWindowEvents := 1 })
  else (st, {})

/-- Embeds the dispatch chain of the `process_events` loop body (recorder.py
lines 243-324), after the type assertion and the ordering check. In the
action branch with window capture disabled and no window event yet, the
screen promotion happens and then line 311 dereferences
`prev_window_event.timestamp` on `None`, raising `AttributeError`. -/
def routeEvent (cfg : Config) (st : RouterState) (e : Event) : StepResult :=
  match e.type with
  | .screen =>
      let st1 := { st with prevScreenEvent := some e, prevEvent := some e }
      if cfg.RECORD_FULL_VIDEO then
        .ok st1 { videoQ := [{ e with type := .screenVideo }], numVideoEvents := 1 }
      else
        .ok st1 {}
  | .window => .ok { st with prevWindowEvent := some e, prevEvent := some e } {}
  | .browser =>
      if cfg.RECORD_BROWSER_EVENTS then
        .ok { st with prevEvent := some e } { browserQ := [e] }
      else
        .ok { st with prevEvent := some e } {}
  | .action =>
      match st.prevScreenEvent with
      | none => .ok st { logs := [discardBeforeScreenMsg] }
      | some ps =>
        let e1 := setScreenshotTs e ps.timestamp
        match st.prevWindowEvent with
        | none =>
            if cfg.RECORD_WINDOW_DATA then
              .ok st { logs := [discardBeforeWindowMsg] }
            else
              let r2 := actionOutputs cfg st e1 ps
              .crash windowNoneCrashMsg r2.2
        | some pw =>
            let e2 := setWindowTs e1 pw.timestamp
            let r2 := actionOutputs cfg st e2 ps
            let r3 := promoteWindow r2.1 pw
            .ok { r3.1 with prevEvent := some e2 } (r2.2.append r3.2)
  | .screenVideo => .crash assertEventTypeMsg {}

/-- Decides `event.timestamp <= prev_event.timestamp` against the stored
previous event (recorder.py lines 230-242): the assertion failure that is
caught, logged and swallowed. -/
def orderingViolation (st : RouterState) (e : Event) : Bool :=
  match st.prevEvent with
  | some p => decide (e.timestamp ≤ p.timestamp)
  | none => false

/-- One full iteration of the `process_events` loop body: assert the event
type, log a swallowed ordering violation, then dispatch. -/
def processOneEvent (cfg : Config) (st : RouterState) (e : Event) : StepResult :=
  if e.type = .screenVideo then .crash assertEventTypeMsg {}
  else
    let res := routeEvent cfg st e
    if orderingViolation st e then res.addLog orderingLogMsg else res

/-- Terminal status of a router run: drained the inbox, or died on an
uncaught exception with the remaining events unprocessed. -/
inductive RunStatus
  | finished (st : RouterState)
  | crashed (msg : String)
deriving DecidableEq, Repr

def processEventsFrom (cfg : Config) (st : RouterState) :
    List Event → RunStatus × RouterOutput
  | [] => (.finished st, {})
  | e :: rest =>
    match processOneEvent cfg st e with
    | .ok st' out =>
        let r := processEventsFrom cfg st' rest
        (r.1, out.append r.2)
    | .crash msg out => (.crashed msg, out)

/-- Embeds `process_events` (recorder.py) run over a finite inbox until it is
drained or the thread dies. -/
def processEvents (cfg : Config) (events : List Event) : RunStatus × RouterOutput :=
  processEventsFrom cfg {} events

/-- Timestamps of the screenshot rows persisted by the screen writer: each
item of the screen queue is inserted by `write_screen_event` via
`crud.insert_screenshot` with `event.timestamp`. -/
def persistedScreenshotTimestamps (out : RouterOutput) : List ℚ :=
  out.screenQ.map Event.timestamp

/-! ### Video encoding: video.py and recorder.py write_video_event -/

/-- Python `int()` applied to a rational: truncation toward zero. -/
def pyInt (q : ℚ) : ℤ := if 0 ≤ q then ⌊q⌋ else ⌈q⌉

/-- Frame muxed into the output container, with the source wall-clock
timestamp it was encoded from, its presentation timestamp, and whether a key
frame was forced. -/
structure EncodedFrame where
  img : ℕ
  sourceTimestamp : ℚ
  pts : ℤ
  keyFrame : Bool
deriving DecidableEq, Repr

/-- Embeds `write_video_frame` (video.py): candidate
`pts = int((timestamp - video_start_timestamp) * fps)`; if the candidate is
not greater than `last_pts`, `pts = last_pts + 1`; the frame is muxed with
that pts and the new `last_pts` is returned. The container is modeled as the
list of frames muxed so far. -/
def writeVideoFrame (frames : List EncodedFrame) (img : ℕ)
    (timestamp videoStartTimestamp fps : ℚ) (lastPts : ℤ) (forceKeyFrame : Bool) :
    List EncodedFrame × ℤ :=
  let cand := pyInt ((timestamp - videoStartTimestamp) * fps)
  let pts := if cand ≤ lastPts then lastPts + 1 else cand
  (frames ++ [⟨img, timestamp, pts, forceKeyFrame⟩], pts)

/-- Modelled from the spec: the same frame write but with the candidate
computed as `round((frame_ts - video_start_timestamp) * fps)`, as the
specification words it, for comparison with `writeVideoFrame`. -/
def writeVideoFrameSpecRound (frames : List EncodedFrame) (img : ℕ)
    (timestamp videoStartTimestamp fps : ℚ) (lastPts : ℤ) (forceKeyFrame : Bool) :
    List EncodedFrame × ℤ :=
  let cand := round ((timestamp - videoStartTimestamp) * fps)
  let pts := if cand ≤ lastPts then lastPts + 1 else cand
  (frames ++ [⟨img, timestamp, pts, forceKeyFrame⟩], pts)

/-- State dict threaded through the video writer worker between
`write_video_event` calls. -/
structure VideoWriterState where
  videoStartTimestamp : ℚ
  lastPts : ℤ
  lastFrame : Option ℕ := none
  lastFrameTimestamp : Option ℚ := none
deriving DecidableEq, Repr

/-- Loop `for _ in range(num_copies)` of `write_video_event`: write the same
frame `n` times, threading `last_pts`. -/
def writeFrameCopies (img : ℕ) (ts start fps : ℚ) (forceKey : Bool) :
    ℕ → List EncodedFrame × ℤ → List EncodedFrame × ℤ
  | 0, acc => acc
  | n + 1, acc =>
      writeFrameCopies img ts start fps forceKey n
        (writeVideoFrame acc.1 img ts start fps acc.2 forceKey)

def videoEventTypeMsg : String := "AssertionError: event.type is not screen video"

/-- Embeds `write_video_event` (recorder.py): asserts the event type is
`screen/video`; `force_key_frame = (last_pts == 0)`; writes `num_copies = 2`
copies when `last_pts == 0` and one copy otherwise; records the last frame
and timestamp for finalization. -/
def writeVideoEvent (fps : ℚ) (frames : List EncodedFrame) (vs : VideoWriterState)
    (e : Event) : Except String (List EncodedFrame × VideoWriterState) :=
  if e.type ≠ .screenVideo then .error videoEventTypeMsg
  else
    let img := match e.data with
      | .img i => i
      | _ => 0
    let forceKey : Bool := vs.lastPts = 0
    let copies : ℕ := if vs.lastPts ≠ 0 then 1 else 2
    let r := writeFrameCopies img e.timestamp vs.videoStartTimestamp fps forceKey
      copies (frames, vs.lastPts)
    .ok (r.1,
      { vs with lastPts := r.2, lastFrame := some img,
                lastFrameTimestamp := some e.timestamp })

/-- Drain loop of the video writer worker (`write_events` specialized to
`write_video_event`), threading the state dict. -/
def runVideoWriter (fps : ℚ) (frames : List EncodedFrame) (vs : VideoWriterState) :
    List Event → Except String (List EncodedFrame × VideoWriterState)
  | [] => .ok (frames, vs)
  | e :: rest =>
    match writeVideoEvent fps frames vs e with
    | .ok r => runVideoWriter fps r.1 r.2 rest
    | .error msg => .error msg

/-- Recording row, the sole columns the video path touches. -/
structure RecordingRow where
  id : ℕ
  timestamp : ℚ
  video_start_time : Option ℚ := none
deriving DecidableEq, Repr

/-- Embeds `crud.update_video_start_time`lite: writes the value into the
recording row and commits. -/
def updateVideoStartTime (rec : RecordingRow) (t : ℚ) : RecordingRow :=
  { rec with video_start_time := some t }

/-- Embeds the tail of `initialize_video_writer` (video.py): after opening
the container, `base_timestamp = utils.get_timestamp()` — the clock reading
at initialization time, before any frame has been received. -/
def initVideoWriterBaseTimestamp (clockNowAtInit : ℚ) : ℚ := clockNowAtInit

/-- Embeds `video_pre_callback` (recorder.py): runs before the worker drain
loop; initializes the writer, writes the base timestamp back to the
recording row, and seeds the state dict with `last_pts = 0`. -/
def videoPreCallback (rec : RecordingRow) (clockNowAtInit : ℚ) :
    RecordingRow × VideoWriterState :=
  let vst := initVideoWriterBaseTimestamp clockNowAtInit
  (updateVideoStartTime rec vst, { videoStartTimestamp := vst, lastPts := 0 })

/-! ### Stop-sequence detection: recorder.py, read_keyboard_events -/

/-- Canonical identity of a pressed key, as pynput exposes it: a character
(for KeyCode) or a name (for special keys such as ctrl). -/
structure PressedKey where
  charAttr : Option String
  nameAttr : Option String
deriving DecidableEq, Repr

/-- Canonical form of `keyboard.KeyCode.from_char(s)`: a key code carrying
only the character. -/
def canonicalFromChar (s : String) : PressedKey := ⟨some s, none⟩

/-- Embeds the match test of recorder.py line 1052:
`canonical_key == canonical_sequence or canonical_key_name ==
stop_sequence[index]`. -/
def keyMatches (k : PressedKey) (elem : String) : Bool :=
  k == canonicalFromChar elem || k.nameAttr == some elem

/-- One stop-sequence check inside the `on_press` loop: read
`stop_sequence[stop_sequence_indices[i]]` (an IndexError when out of range),
then increment the index on a match or reset it to 0. -/
def stepOneSequence (seq : List String) (idx : ℕ) (k : PressedKey) : Except String ℕ :=
  match seq.get? idx with
  | none => .error "IndexError: list index out of range"
  | some elem => .ok (if keyMatches k elem then idx + 1 else 0)

/-- Embeds the whole stop-sequence block of `on_press`: update every index,
then raise the sticky `stop_sequence_detected` flag when any updated index
equals its sequence length. -/
def onPressStopSequences (seqs : List (List String)) (idxs : List ℕ) (det : Bool)
    (k : PressedKey) : Except String (List ℕ × Bool) :=
  match (seqs.zip idxs).mapM (fun si => stepOneSequence si.1 si.2 k) with
  | .error msg => .error msg
  | .ok idxs' =>
      .ok (idxs', det || (seqs.zip idxs').any (fun si => si.2 == si.1.length))

/-- Folds `on_press` over a list of key presses, starting from the state of
`read_keyboard_events`: one index per stop sequence, all 0, flag down. -/
def runPresses (seqs : List (List String)) :
    List PressedKey → List ℕ × Bool → Except String (List ℕ × Bool)
  | [], st => .ok st
  | k :: ks, st =>
    match onPressStopSequences seqs st.1 st.2 k with
    | .ok st' => runPresses seqs ks st'
    | .error msg => .error msg

def initStopState (seqs : List (List String)) : List ℕ × Bool :=
  (seqs.map (fun _ => 0), false)

/-- Canonical ctrl key press: pynput `Key.ctrl` has `name = "ctrl"` and no
`char`. -/
def ctrlKey : PressedKey := ⟨none, some "ctrl"⟩

/-! ### Post-processing: db/crud.py, post_process_events -/

/-- Persisted screenshot, window-event or browser-event row: the two columns
`post_process_events` reads. -/
structure DbRow where
  timestamp : ℚ
  id : ℕ
deriving DecidableEq, Repr

/-- Persisted action-event row: the columns `post_process_events` reads and
writes. -/
structure ActionRow where
  timestamp : ℚ
  screenshot_timestamp : Option ℚ := none
  window_event_timestamp : Option ℚ := none
  browser_event_timestamp : Option ℚ := none
  screenshot_id : Option ℕ := none
  window_event_id : Option ℕ := none
  browser_event_id : Option ℕ := none
deriving DecidableEq, Repr

/-- Lookup in the `timestamp: id` dict comprehension followed by `.get`:
later rows overwrite earlier ones, so the id of the last row with the key is
returned; a missing key, including a `None` timestamp, yields `None`. -/
def tsToIdGet (rows : List DbRow) (k : Option ℚ) : Option ℕ :=
  match k with
  | none => none
  | some t => (rows.reverse.find? (fun r => r.timestamp == t)).map (fun r => r.id)

/-- Body of the `post_process_events` loop for one action event. -/
def resolveActionIds (ss ws bs : List DbRow) (a : ActionRow) : ActionRow :=
  { a with
    screenshot_id := tsToIdGet ss a.screenshot_timestamp
    window_event_id := tsToIdGet ws a.window_event_timestamp
    browser_event_id := tsToIdGet bs a.browser_event_timestamp }

/-- Embeds `post_process_events` (crud.py): builds the three timestamp maps
and resolves the foreign-key id columns of every action event. -/
def postProcessEvents (ss ws bs : List DbRow) (acts : List ActionRow) : List ActionRow :=
  acts.map (resolveActionIds ss ws bs)

/-- Holds of a resolved id column: it carries the id of a row whose timestamp
equals the stored foreign-key timestamp, or is `None` when no row matches. -/
def idResolved (rows : List DbRow) (k : Option ℚ) (r : Option ℕ) : Prop :=
  (∃ row ∈ rows, some row.timestamp = k ∧ r = some row.id) ∨
  (r = none ∧ ∀ row ∈ rows, some row.timestamp ≠ k)

/-! ### Concrete scenario inputs -/

/-- Action-gated scenario of the spec: screen events at 1.000, 1.042, 1.083
and one click at 1.050, under the default config (video on, full video off,
window capture off). -/
def gatedScenarioEvents : List Event :=
  [⟨1, .screen, .img 0⟩,
   ⟨mkRat 1042 1000, .screen, .img 1⟩,
   ⟨mkRat 1050 1000, .action, .act ⟨"click", none, none⟩⟩,
   ⟨mkRat 1083 1000, .screen, .img 2⟩]

def gatedScenarioRun : RunStatus × RouterOutput :=
  processEvents defaultConfig gatedScenarioEvents

/-- Encoder side of the scenario: the video writer worker starts with the
state seeded by `video_pre_callback` (base timestamp 1, the recording start)
and drains the video queue the router emitted, at the default 24 fps. -/
def gatedScenarioFrames : List EncodedFrame :=
  match runVideoWriter 24 []
      (videoPreCallback ⟨1, 1, none⟩ 1).2 gatedScenarioRun.2.videoQ with
  | .ok r => r.1
  | .error _ => []

/-- Inbox for the missing-window crash: a screen event then an action, with
window capture disabled (the default) and no window event ever arriving. -/
def missingWindowEvents : List Event :=
  [⟨1, .screen, .img 0⟩,
   ⟨2, .action, .act ⟨"click", none, none⟩⟩]

/-- Inbox with a timestamp regression: a screen event at t=2 followed by one
at t=1, under full-video mode so that routing of both is visible. -/
def regressionEvents : List Event :=
  [⟨2, .screen, .img 0⟩,
   ⟨1, .screen, .img 1⟩]

def fullVideoConfig : Config := { defaultConfig with RECORD_FULL_VIDEO := true }

def regressionRun : RunStatus × RouterOutput :=
  processEvents fullVideoConfig regressionEvents

/-- Recording row for the video-start scenario: recording started at t=5. -/
def videoStartScenarioRecording : RecordingRow := ⟨1, 5, none⟩

/-- Clock reading when the video writer worker initializes, in the
video-start scenario. -/
def videoStartScenarioInitTime : ℚ := 10

/-- First (and only) frame event received by the video writer worker in the
video-start scenario: wall-clock timestamp 11. -/
def videoStartScenarioFirstFrame : Event := ⟨11, .screenVideo, .img 7⟩

/-! ### Helper lemmas -/

theorem optionMapGetDRestore {α : Type} (o : Option α) (x : α) :
    (o.map (fun _ => x)).getD (o.getD x) = x := by
  cases o <;> rfl

theorem tsToIdGet_resolved (rows : List DbRow) (k : Option ℚ) :
    idResolved rows k (tsToIdGet rows k) := by
  cases k with
  | none =>
      exact Or.inr ⟨rfl, fun row _ h => by simp at h⟩
  | some t =>
      have hmain : tsToIdGet rows (some t) =
          (rows.reverse.find? (fun r => r.timestamp == t)).map (fun r => r.id) := rfl
      cases hf : rows.reverse.find? (fun r => r.timestamp == t) with
      | none =>
          refine Or.inr ⟨by rw [hmain, hf]; rfl, ?_⟩
          intro row hrow hcontra
          have hmem : row ∈ rows.reverse := List.mem_reverse.mpr hrow
          have hne := List.find?_eq_none.mp hf row hmem
          exact hne (by simp [Option.some.inj hcontra])
      | some r =>
          have hp := List.find?_some hf
          have hmem : r ∈ rows := List.mem_reverse.mp (List.mem_of_find?_eq_some hf)
          refine Or.inl ⟨r, hmem, ?_, by rw [hmain, hf]; rfl⟩
          have hpt : r.timestamp = t := by simpa using hp
          exact congrArg some hpt

/-! ### Theorems about the claims -/

/-- C1 counterexample: in the action-gated scenario (screen events at 1.000,
1.042, 1.083, one click at 1.050, default config), exactly one screenshot
row is persisted (timestamp 1.042), but the encoder does not encode exactly
one frame: `write_video_event` writes the first frame twice
(`num_copies = 2`), so two frames are encoded. -/
theorem c1_action_gated_counterexample :
    persistedScreenshotTimestamps gatedScenarioRun.2 = [mkRat 1042 1000] ∧
    ¬ gatedScenarioFrames.length = 1 ∧
    gatedScenarioFrames.length = 2 := by
  have hq : gatedScenarioRun.2.videoQ =
      [⟨mkRat 1042 1000, .screenVideo, .img 1⟩] := by decide
  have hframes : gatedScenarioFrames =
      [⟨1, mkRat 1042 1000, 1, true⟩, ⟨1, mkRat 1042 1000, 2, true⟩] := by
    unfold gatedScenarioFrames
    rw [hq]
    norm_num [runVideoWriter, writeVideoEvent, writeFrameCopies, writeVideoFrame,
      pyInt, videoPreCallback, updateVideoStartTime, initVideoWriterBaseTimestamp,
      Rat.mkRat_eq_div]
  refine ⟨by decide, ?_, ?_⟩ <;> rw [hframes] <;> decide

/-- C1 amended: in the action-gated scenario, exactly one screenshot row is
persisted (timestamp 1.042) and exactly one video event is dispatched to the
encoder with source timestamp 1.042; the encoder writes that first frame
twice (first-frame duplication), so the encoded frames are two, both with
source timestamp 1.042, at PTS 1 and 2. -/
theorem c1_action_gated_amended :
    persistedScreenshotTimestamps gatedScenarioRun.2 = [mkRat 1042 1000] ∧
    gatedScenarioRun.2.videoQ.map Event.timestamp = [mkRat 1042 1000] ∧
    gatedScenarioRun.2.numVideoEvents = 1 ∧
    gatedScenarioFrames.map EncodedFrame.sourceTimestamp =
      [mkRat 1042 1000, mkRat 1042 1000] ∧
    gatedScenarioFrames.map EncodedFrame.pts = [1, 2] := by
  have hq : gatedScenarioRun.2.videoQ =
      [⟨mkRat 1042 1000, .screenVideo, .img 1⟩] := by decide
  have hframes : gatedScenarioFrames =
      [⟨1, mkRat 1042 1000, 1, true⟩, ⟨1, mkRat 1042 1000, 2, true⟩] := by
    unfold gatedScenarioFrames
    rw [hq]
    norm_num [runVideoWriter, writeVideoEvent, writeFrameCopies, writeVideoFrame,
      pyInt, videoPreCallback, updateVideoStartTime, initVideoWriterBaseTimestamp,
      Rat.mkRat_eq_div]
  refine ⟨by decide, by decide, by decide, ?_, ?_⟩ <;> rw [hframes] <;> decide

/-- C2: the router does NOT always route-or-drop: with window capture
disabled (the default) and no window event yet, processing an action event
reaches `prev_window_event.timestamp` on `None` (recorder.py line 311) and
the router dies with an `AttributeError` — after having already routed the
action. The claim is right about the intended behavior (the code comment on
line 277 says to skip the window-timestamp requirement); the code is wrong. -/
theorem c2_router_crash_on_missing_window :
    (processEvents defaultConfig missingWindowEvents).1 =
      .crashed windowNoneCrashMsg ∧
    (processEvents defaultConfig missingWindowEvents).2.actionQ.length = 1 :=
  ⟨rfl, rfl⟩

/-- C3 counterexample: a screen event at t=1 arriving after one at t=2, in
full-video mode, is NOT dropped: it is still routed to the video queue, it
replaces the stored previous screen event, and it becomes the stored
previous event; only a log message is emitted. -/
theorem c3_ordering_counterexample :
    regressionRun.2.videoQ.map Event.timestamp = [2, 1] ∧
    regressionRun.2.logs = [orderingLogMsg] ∧
    regressionRun.1 = .finished
      { prevEvent := some ⟨1, .screen, .img 1⟩
        prevScreenEvent := some ⟨1, .screen, .img 1⟩
        prevWindowEvent := none
        prevSavedScreenTimestamp := 0
        prevSavedWindowTimestamp := 0 } :=
  ⟨rfl, rfl, rfl⟩

/-- C3 amended: on an inbox event whose timestamp is not greater than the
previous event's, the router logs the swallowed assertion and then processes
the offending event exactly as it would have without the violation; in
particular a screen event still replaces the stored previous screen event. -/
theorem c3_ordering_amended (cfg : Config) (st : RouterState) (e p : Event)
    (h1 : st.prevEvent = some p) (h2 : e.timestamp ≤ p.timestamp)
    (h3 : e.type ≠ EventKind.screenVideo) :
    processOneEvent cfg st e = (routeEvent cfg st e).addLog orderingLogMsg ∧
    (e.type = EventKind.screen →
      (processOneEvent cfg st e).prevScreenOf = some e) := by
  have hv : orderingViolation st e = true := by
    simp [orderingViolation, h1, h2]
  constructor
  · simp [processOneEvent, h3, hv]
  · intro hscreen
    simp only [processOneEvent, if_neg h3, hv, if_pos]
    simp only [routeEvent, hscreen]
    by_cases hf : cfg.RECORD_FULL_VIDEO <;>
      simp [hf, StepResult.addLog, StepResult.prevScreenOf]

/-- C3 amended, witness at a concrete regressed screen event. -/
theorem c3_ordering_amended_witness :
    processOneEvent defaultConfig
        { prevEvent := some ⟨2, .screen, .img 0⟩
          prevScreenEvent := some ⟨2, .screen, .img 0⟩ }
        ⟨1, .screen, .img 1⟩ =
      (routeEvent defaultConfig
        { prevEvent := some ⟨2, .screen, .img 0⟩
          prevScreenEvent := some ⟨2, .screen, .img 0⟩ }
        ⟨1, .screen, .img 1⟩).addLog orderingLogMsg ∧
    ((⟨1, .screen, .img 1⟩ : Event).type = EventKind.screen →
      (processOneEvent defaultConfig
        { prevEvent := some ⟨2, .screen, .img 0⟩
          prevScreenEvent := some ⟨2, .screen, .img 0⟩ }
        ⟨1, .screen, .img 1⟩).prevScreenOf = some ⟨1, .screen, .img 1⟩) :=
  c3_ordering_amended defaultConfig
    { prevEvent := some ⟨2, .screen, .img 0⟩
      prevScreenEvent := some ⟨2, .screen, .img 0⟩ }
    ⟨1, .screen, .img 1⟩ ⟨2, .screen, .img 0⟩ rfl (by norm_num) (by decide)

/-- C4 counterexample: at frame timestamp 1/16, video start 0, fps 24 and
last PTS 0, the code emits PTS 1 (candidate `int(1.5) = 1`), while the
claimed candidate `round(1.5) = 2` would survive the guard and emit PTS 2. -/
theorem c4_pts_round_counterexample :
    (writeVideoFrame [] 0 (1/16) 0 24 0 false).2 = 1 ∧
    (writeVideoFrameSpecRound [] 0 (1/16) 0 24 0 false).2 = 2 ∧
    (writeVideoFrame [] 0 (1/16) 0 24 0 false).2 ≠
      (writeVideoFrameSpecRound [] 0 (1/16) 0 24 0 false).2 := by
  refine ⟨?_, ?_, ?_⟩ <;> norm_num [writeVideoFrame, writeVideoFrameSpecRound, pyInt, round_eq]

/-- C4 amended: the candidate PTS is the truncation toward zero (Python
`int`) of `(frame_ts - video_start_timestamp) * fps`; a candidate not above
the last emitted PTS is replaced by `last_pts + 1`; consequently each write
emits a PTS strictly greater than the previous one, so PTS values of
successive write calls are strictly increasing. -/
theorem c4_pts_amended (frames : List EncodedFrame) (img : ℕ) (ts start fps : ℚ)
    (lastPts : ℤ) (fk : Bool) :
    (writeVideoFrame frames img ts start fps lastPts fk).2 =
      (if pyInt ((ts - start) * fps) ≤ lastPts then lastPts + 1
       else pyInt ((ts - start) * fps)) ∧
    lastPts < (writeVideoFrame frames img ts start fps lastPts fk).2 ∧
    (∀ (ts2 : ℚ) (img2 : ℕ) (fk2 : Bool),
      (writeVideoFrame frames img ts start fps lastPts fk).2 <
        (writeVideoFrame (writeVideoFrame frames img ts start fps lastPts fk).1
          img2 ts2 start fps
          (writeVideoFrame frames img ts start fps lastPts fk).2 fk2).2) := by
  have mono : ∀ (fr : List EncodedFrame) (i : ℕ) (t : ℚ) (lp : ℤ) (b : Bool),
      lp < (writeVideoFrame fr i t start fps lp b).2 := by
    intro fr i t lp b
    unfold writeVideoFrame
    dsimp only
    split <;> omega
  exact ⟨rfl, mono frames img ts lastPts fk,
    fun ts2 img2 fk2 => mono _ img2 ts2 _ fk2⟩

/-- C5 counterexample: the recording row gets `video_start_timestamp = 10`,
the clock reading when the writer was initialized, although the first frame
received by the worker has wall-clock timestamp 11; the two frames encoded
from it carry source timestamp 11 while the row still holds 10. -/
theorem c5_video_start_counterexample :
    (videoPreCallback videoStartScenarioRecording
        videoStartScenarioInitTime).1.video_start_time = some 10 ∧
    videoStartScenarioFirstFrame.timestamp = 11 ∧
    runVideoWriter 24 []
        (videoPreCallback videoStartScenarioRecording videoStartScenarioInitTime).2
        [videoStartScenarioFirstFrame] =
      .ok ([⟨7, 11, 24, true⟩, ⟨7, 11, 25, true⟩],
        { videoStartTimestamp := 10, lastPts := 25,
          lastFrame := some 7, lastFrameTimestamp := some 11 }) ∧
    ¬ (videoPreCallback videoStartScenarioRecording
        videoStartScenarioInitTime).1.video_start_time =
      some videoStartScenarioFirstFrame.timestamp := by
  refine ⟨rfl, rfl, ?_, ?_⟩
  · norm_num [runVideoWriter, writeVideoEvent, writeFrameCopies, writeVideoFrame,
      pyInt, videoPreCallback, updateVideoStartTime, initVideoWriterBaseTimestamp,
      videoStartScenarioFirstFrame, videoStartScenarioRecording,
      videoStartScenarioInitTime]
  · intro h
    have h10 : (10 : ℚ) = 11 := Option.some.inj h
    norm_num at h10

/-- C5 amended: the value written back to the recording row as
`video_start_timestamp` is the clock reading taken while initializing the
video writer, before the worker has received any frame; the same value seeds
the writer state, with `last_pts = 0`. -/
theorem c5_video_start_amended (rec : RecordingRow) (t : ℚ) :
    (videoPreCallback rec t).1 =
      updateVideoStartTime rec (initVideoWriterBaseTimestamp t) ∧
    (videoPreCallback rec t).1.video_start_time = some t ∧
    (videoPreCallback rec t).2.videoStartTimestamp = t ∧
    (videoPreCallback rec t).2.lastPts = 0 :=
  ⟨rfl, rfl, rfl, rfl⟩

/-- C6: the claim is right about the intended screen-reader loop, but the
code cannot run it: `Settings` (config.py) declares no `SCREEN_CAPTURE_FPS`
attribute at all — there is no default of 24 — so the fps fetch at the top
of `read_screen_events` raises `AttributeError`. -/
theorem c6_screen_fps_missing_attr :
    settingsAttrs.find? (fun p => p.1 == "SCREEN_CAPTURE_FPS") = none ∧
    readScreenEventsFpsSetup =
      .error "AttributeError: Settings object has no attribute SCREEN_CAPTURE_FPS" :=
  ⟨rfl, rfl⟩

/-- C7: once the anchor is set (to a nonzero wall start, with a nonzero perf
counter, since the assertion treats 0.0 as unset), every `get_timestamp` call
returns `wall_start + (perf_now - perf_start)`; results of successive calls
are non-decreasing in the perf counter; and before the anchor is set,
`get_timestamp` fails with the assertion error instead of returning a
value. -/
theorem c7_clock (w ps wallNow p q : ℚ) (hw : w ≠ 0) (hps : ps ≠ 0) (hpq : p ≤ q) :
    getTimestamp (setStartTime (some w) wallNow ps).1 p = .ok (w + (p - ps)) ∧
    (∀ u v : ℚ, getTimestamp (setStartTime (some w) wallNow ps).1 p = .ok u →
      getTimestamp (setStartTime (some w) wallNow ps).1 q = .ok v → u ≤ v) ∧
    (∀ r : ℚ, getTimestamp initialClock r = .error clockUninitMsg) := by
  have h1 : (setStartTime (some w) wallNow ps).1 = ⟨some w, some ps⟩ := by
    simp [setStartTime, hw]
  refine ⟨?_, ?_, fun _ => rfl⟩
  · rw [h1]
    simp [getTimestamp, hw, hps]
  · intro u v hu hv
    rw [h1] at hu hv
    simp [getTimestamp, hw, hps] at hu hv
    rw [← hu, ← hv]
    linarith

/-- C7 witness: anchor at wall start 5 and perf counter 1; calls at perf 2
then 3. -/
theorem c7_clock_witness :
    getTimestamp (setStartTime (some 5) 7 1).1 2 = .ok (5 + (2 - 1)) ∧
    (∀ u v : ℚ, getTimestamp (setStartTime (some 5) 7 1).1 2 = .ok u →
      getTimestamp (setStartTime (some 5) 7 1).1 3 = .ok v → u ≤ v) ∧
    (∀ r : ℚ, getTimestamp initialClock r = .error clockUninitMsg) :=
  c7_clock 5 1 7 2 3 (by norm_num) (by norm_num) (by norm_num)

/-- C8: a key press whose canonical identity matches the current element of a
stop sequence increments the progress index of that sequence, any other key
press resets it to 0; after the updates, `stop_sequence_detected` is set
exactly when it already was or some updated index equals its sequence
length; and with stop sequences `[["ctrl","ctrl","ctrl"]]`, three ctrl
presses from the initial state set the flag. -/
theorem c8_stop_sequences
    (seq : List String) (idx : ℕ) (k : PressedKey) (h : idx < seq.length)
    (seqs : List (List String)) (idxs : List ℕ) (det : Bool)
    (idxs' : List ℕ) (det' : Bool)
    (hrun : onPressStopSequences seqs idxs det k = .ok (idxs', det')) :
    stepOneSequence seq idx k =
      .ok (if keyMatches k (seq.get ⟨idx, h⟩) then idx + 1 else 0) ∧
    (det' = true ↔ (det = true ∨ ∃ si ∈ seqs.zip idxs', si.2 = si.1.length)) ∧
    runPresses [["ctrl", "ctrl", "ctrl"]] [ctrlKey, ctrlKey, ctrlKey]
      (initStopState [["ctrl", "ctrl", "ctrl"]]) = .ok ([3], true) := by
  refine ⟨?_, ?_, rfl⟩
  · simp [stepOneSequence, List.getElem?_eq_getElem h, List.get_eq_getElem]
  · unfold onPressStopSequences at hrun
    cases hm : (seqs.zip idxs).mapM (fun si => stepOneSequence si.1 si.2 k) with
    | error msg => rw [hm] at hrun; simp at hrun
    | ok l =>
        rw [hm] at hrun
        simp only [Except.ok.injEq, Prod.mk.injEq] at hrun
        obtain ⟨hl, hd⟩ := hrun
        subst hl
        rw [← hd]
        simp [List.any_eq_true, Bool.or_eq_true, beq_iff_eq]

/-- C8 witness: matching step on a singleton sequence and one press of ctrl
against the configured stop sequences. -/
theorem c8_stop_sequences_witness :
    stepOneSequence ["ctrl"] 0 ctrlKey =
      .ok (if keyMatches ctrlKey ((["ctrl"] : List String).get ⟨0, by decide⟩)
           then 0 + 1 else 0) ∧
    (false = true ↔ (false = true ∨
      ∃ si ∈ ([["ctrl", "ctrl", "ctrl"]] : List (List String)).zip [1],
        si.2 = si.1.length)) ∧
    runPresses [["ctrl", "ctrl", "ctrl"]] [ctrlKey, ctrlKey, ctrlKey]
      (initStopState [["ctrl", "ctrl", "ctrl"]]) = .ok ([3], true) :=
  c8_stop_sequences ["ctrl"] 0 ctrlKey (by decide)
    [["ctrl", "ctrl", "ctrl"]] [0] false [1] false rfl

/-- C9: entering `config_override` saves each attribute whose override is
not None and sets the override; None-valued fields leave their attribute
untouched; and exiting restores every overridden attribute — both when the
body finishes and when it raises — so override followed by exit is the
identity on the global config. -/
theorem c9_config_override (c : Config) (rc : RecordingConfig) (err : String) :
    (configOverrideRun c rc (fun x => .ok x)).2 = c ∧
    (configOverrideRun c rc (fun _ => .error err)).2 = c ∧
    (rc.capture_video = none →
      (configOverrideEnter c rc).1.RECORD_VIDEO = c.RECORD_VIDEO) ∧
    (rc.capture_audio = none →
      (configOverrideEnter c rc).1.RECORD_AUDIO_FLAG = c.RECORD_AUDIO_FLAG) ∧
    (rc.capture_images = none →
      (configOverrideEnter c rc).1.RECORD_IMAGES = c.RECORD_IMAGES) ∧
    (rc.capture_window_data = none →
      (configOverrideEnter c rc).1.RECORD_WINDOW_DATA = c.RECORD_WINDOW_DATA) ∧
    (rc.capture_browser_events = none →
      (configOverrideEnter c rc).1.RECORD_BROWSER_EVENTS = c.RECORD_BROWSER_EVENTS) ∧
    (rc.capture_full_video = none →
      (configOverrideEnter c rc).1.RECORD_FULL_VIDEO = c.RECORD_FULL_VIDEO) ∧
    (rc.video_encoding = none →
      (configOverrideEnter c rc).1.VIDEO_ENCODING = c.VIDEO_ENCODING) ∧
    (rc.video_pixel_format = none →
      (configOverrideEnter c rc).1.VIDEO_PIXEL_FORMAT = c.VIDEO_PIXEL_FORMAT) ∧
    (rc.stop_sequences = none →
      (configOverrideEnter c rc).1.STOP_SEQUENCES = c.STOP_SEQUENCES) ∧
    (rc.log_memory = none →
      (configOverrideEnter c rc).1.LOG_MEMORY = c.LOG_MEMORY) ∧
    (rc.plot_performance = none →
      (configOverrideEnter c rc).1.PLOT_PERFORMANCE = c.PLOT_PERFORMANCE) := by
  have key : configOverrideExit (configOverrideEnter c rc).1
      (configOverrideEnter c rc).2 = c := by
    cases c
    simp [configOverrideEnter, configOverrideExit, optionMapGetDRestore]
  refine ⟨?_, ?_, ?_, ?_, ?_, ?_, ?_, ?_, ?_, ?_, ?_, ?_, ?_⟩
  · simpa [configOverrideRun] using key
  · simpa [configOverrideRun] using key
  all_goals intro h
  all_goals simp [configOverrideEnter, h]

/-- C9 witness: the identity at the default config with an all-None override
and a raising body. -/
theorem c9_config_override_witness :
    (configOverrideRun defaultConfig {} (fun x => .ok x)).2 = defaultConfig ∧
    (configOverrideRun defaultConfig {} (fun _ => .error "boom")).2 = defaultConfig ∧
    (({} : RecordingConfig).capture_video = none →
      (configOverrideEnter defaultConfig {}).1.RECORD_VIDEO =
        defaultConfig.RECORD_VIDEO) ∧
    (({} : RecordingConfig).capture_audio = none →
      (configOverrideEnter defaultConfig {}).1.RECORD_AUDIO_FLAG =
        defaultConfig.RECORD_AUDIO_FLAG) ∧
    (({} : RecordingConfig).capture_images = none →
      (configOverrideEnter defaultConfig {}).1.RECORD_IMAGES =
        defaultConfig.RECORD_IMAGES) ∧
    (({} : RecordingConfig).capture_window_data = none →
      (configOverrideEnter defaultConfig {}).1.RECORD_WINDOW_DATA =
        defaultConfig.RECORD_WINDOW_DATA) ∧
    (({} : RecordingConfig).capture_browser_events = none →
      (configOverrideEnter defaultConfig {}).1.RECORD_BROWSER_EVENTS =
        defaultConfig.RECORD_BROWSER_EVENTS) ∧
    (({} : RecordingConfig).capture_full_video = none →
      (configOverrideEnter defaultConfig {}).1.RECORD_FULL_VIDEO =
        defaultConfig.RECORD_FULL_VIDEO) ∧
    (({} : RecordingConfig).video_encoding = none →
      (configOverrideEnter defaultConfig {}).1.VIDEO_ENCODING =
        defaultConfig.VIDEO_ENCODING) ∧
    (({} : RecordingConfig).video_pixel_format = none →
      (configOverrideEnter defaultConfig {}).1.VIDEO_PIXEL_FORMAT =
        defaultConfig.VIDEO_PIXEL_FORMAT) ∧
    (({} : RecordingConfig).stop_sequences = none →
      (configOverrideEnter defaultConfig {}).1.STOP_SEQUENCES =
        defaultConfig.STOP_SEQUENCES) ∧
    (({} : RecordingConfig).log_memory = none →
      (configOverrideEnter defaultConfig {}).1.LOG_MEMORY =
        defaultConfig.LOG_MEMORY) ∧
    (({} : RecordingConfig).plot_performance = none →
      (configOverrideEnter defaultConfig {}).1.PLOT_PERFORMANCE =
        defaultConfig.PLOT_PERFORMANCE) :=
  c9_config_override defaultConfig {} "boom"

/-- C10: `post_process_events` is total over any persisted event set: it maps
every action event, preserving their number, and each resolved id column
carries the id of a persisted row whose timestamp equals the stored
foreign-key timestamp, or None when no row matches (including a None
timestamp); no error is raised on any input. -/
theorem c10_post_process (ss ws bs : List DbRow) (acts : List ActionRow)
    (a : ActionRow) :
    (postProcessEvents ss ws bs acts).length = acts.length ∧
    postProcessEvents ss ws bs acts = acts.map (resolveActionIds ss ws bs) ∧
    idResolved ss a.screenshot_timestamp
      (resolveActionIds ss ws bs a).screenshot_id ∧
    idResolved ws a.window_event_timestamp
      (resolveActionIds ss ws bs a).window_event_id ∧
    idResolved bs a.browser_event_timestamp
      (resolveActionIds ss ws bs a).browser_event_id := by
  refine ⟨by simp [postProcessEvents], rfl, ?_, ?_, ?_⟩
  · exact tsToIdGet_resolved ss a.screenshot_timestamp
  · exact tsToIdGet_resolved ws a.window_event_timestamp
  · exact tsToIdGet_resolved bs a.browser_event_timestamp

end OACapture
